import Mathlib

/-!
Verification of the Monte Carlo portfolio optimizer
(src/monte-carlo-code.py) against its specification.

Shallow embedding conventions: the asset universe has size `N`; vectors are
`Fin N → ℝ` and the covariance matrix is `Fin N → Fin N → ℝ`.  Real numbers
stand in for IEEE floats.  Division by zero in ℝ yields 0 and stands in for
the inf/NaN that a numpy float division by zero produces: in both semantics
the division is executed, no exception is raised, and a value (not an error)
is returned.  The numpy random source is modelled as an explicit stream of
raw uniform draws passed in as a parameter.
-/

open Finset

noncomputable section

/-- Embedding of `calculate_portfolio_metrics` (lines 44-56):
`portfolio_return = np.sum(avg_returns * weights) * 252`,
`portfolio_volatility = np.sqrt(np.dot(weights.T, np.dot(cov_matrix * 252, weights)))`,
`sharpe_ratio = portfolio_return / portfolio_volatility`;
returns the triple `(return, volatility, sharpe_ratio)`. -/
def calculate_portfolio_metrics {N : ℕ} (avg_returns : Fin N → ℝ)
    (cov_matrix : Fin N → Fin N → ℝ) (weights : Fin N → ℝ) : ℝ × ℝ × ℝ :=
  let portfolio_return : ℝ := (∑ i, avg_returns i * weights i) * 252
  let portfolio_volatility : ℝ :=
    Real.sqrt (∑ i, weights i * ∑ j, cov_matrix i j * 252 * weights j)
  (portfolio_return, portfolio_volatility, portfolio_return / portfolio_volatility)

/-- Embedding of `generate_portfolio` (lines 38-42): the random source has
produced the raw vector `draw` (`np.random.random(len(self.tickers))`); the
code divides by the sum of the draws with no zero-sum guard and no retry. -/
def generate_portfolio {N : ℕ} (draw : Fin N → ℝ) : Fin N → ℝ :=
  fun i => draw i / ∑ j, draw j

/-- Embedding of `run_monte_carlo` (lines 58-80): for each trial index `t`
in `range(num_simulations)`, sample weights from the `t`-th raw draw of the
random stream, score them, and append the row `(weights, metrics)` in draw
order.  No validation of `num_simulations` is performed by the code. -/
def run_monte_carlo {N : ℕ} (avg_returns : Fin N → ℝ)
    (cov_matrix : Fin N → Fin N → ℝ) (rng : ℕ → Fin N → ℝ)
    (num_simulations : ℕ) : List ((Fin N → ℝ) × (ℝ × ℝ × ℝ)) :=
  (List.range num_simulations).map fun t =>
    let weights := generate_portfolio (rng t)
    (weights, calculate_portfolio_metrics avg_returns cov_matrix weights)

/-- Embedding of `data.pct_change().dropna()` (line 34) on a fully observed
price table (one row per date): row `t ≥ 1` becomes
`(p[t] - p[t-1]) / p[t-1]` per asset; the first row (NaN after
`pct_change`) is dropped. -/
def pct_change_dropna {N : ℕ} (data : List (Fin N → ℝ)) : List (Fin N → ℝ) :=
  List.zipWith (fun prev curr => fun i => (curr i - prev i) / prev i) data data.tail

/-- Embedding of `returns_data.mean()` (line 36): per-asset arithmetic mean
of the aligned return rows. -/
def meanVec {N : ℕ} (rows : List (Fin N → ℝ)) (i : Fin N) : ℝ :=
  (rows.map fun r => r i).sum / rows.length

/-- Embedding of `returns_data.cov()` (line 35): pandas sample covariance
with denominator `length - 1` (ddof = 1).  With fewer than 2 rows the
denominator is 0 and the division is executed anyway (NaN in pandas, 0
under the ℝ convention); the code performs no length check. -/
def covMat {N : ℕ} (rows : List (Fin N → ℝ)) (i j : Fin N) : ℝ :=
  (rows.map fun r => (r i - meanVec rows i) * (r j - meanVec rows j)).sum
    / ((rows.length - 1 : ℕ) : ℝ)

/-- Mutable session state of a `PortfolioOptimizer` instance (lines 18-22):
`tickers`, `portfolio_size`, and the statistics fields `returns_data`,
`cov_matrix`, `avg_returns` filled in by `fetch_data`. -/
structure PState (N : ℕ) where
  tickers : List String
  portfolio_size : ℝ
  returns_data : List (Fin N → ℝ)
  cov_matrix : Fin N → Fin N → ℝ
  avg_returns : Fin N → ℝ

/-- State produced by `__init__` (lines 10-22): the statistics fields are
`None` in the source; the placeholders here are the empty list and zero
functions, overwritten by `fetch_data` before any use. -/
def init_state (N : ℕ) (tickers : List String) (portfolio_size : ℝ) : PState N :=
  ⟨tickers, portfolio_size, [], fun _ _ => 0, fun _ => 0⟩

/-- Embedding of `fetch_data` (lines 24-36) past the I/O boundary: the
aligned price table `data` is what the external fetch produced; the method
stores the return rows, their covariance matrix and their mean vector in
the session state, unconditionally (no minimum-length check, no error). -/
def fetch_data {N : ℕ} (s : PState N) (data : List (Fin N → ℝ)) : PState N :=
  let returns_data := pct_change_dropna data
  { s with returns_data := returns_data
           cov_matrix := covMat returns_data
           avg_returns := meanVec returns_data }

/-- The optimization problem handed to `scipy.optimize.minimize`
(lines 92-111): objective, one constraint (a type tag and a residual
function), per-variable bounds, and the initial guess `x0`. -/
structure Problem (N : ℕ) where
  objective : (Fin N → ℝ) → ℝ
  constraint_type : String
  constraint_fun : (Fin N → ℝ) → ℝ
  bounds : Fin N → ℝ × ℝ
  x0 : Fin N → ℝ

/-- The fields of the scipy `OptimizeResult` that `optimize_portfolio`
could read: the final iterate `x` and the convergence flag `success`
(which the source never reads). -/
structure SolverResult (N : ℕ) where
  x : Fin N → ℝ
  success : Bool

/-- The dict returned by `optimize_portfolio` (lines 116-121): exactly the
four keys `weights`, `return`, `volatility`, `sharpe_ratio` — there is no
convergence field. -/
structure OptResult (N : ℕ) where
  weights : Fin N → ℝ
  ret : ℝ
  volatility : ℝ
  sharpe_ratio : ℝ

/-- The problem `optimize_portfolio` builds (lines 92-102): objective
`neg_sharpe_ratio`, equality constraint `lambda x: np.sum(x) - 1`, bounds
`(0, 1)` per asset, initial guess `[1/N] * N`. -/
def posedProblem {N : ℕ} (avg_returns : Fin N → ℝ)
    (cov_matrix : Fin N → Fin N → ℝ) : Problem N where
  objective := fun weights =>
    -(calculate_portfolio_metrics avg_returns cov_matrix weights).2.2
  constraint_type := "eq"
  constraint_fun := fun x => (∑ i, x i) - 1
  bounds := fun _ => (0, 1)
  x0 := fun _ => 1 / (N : ℝ)

/-- Embedding of `optimize_portfolio` (lines 82-121): the external solver
`minimize` is a parameter; the code calls it on the posed problem, reads
only `result.x`, rescores it, and returns the four-field dict.  The
`risk_free_rate` argument is accepted but never used by the body. -/
def optimize_portfolio {N : ℕ} (minimize : Problem N → SolverResult N)
    (avg_returns : Fin N → ℝ) (cov_matrix : Fin N → Fin N → ℝ)
    (risk_free_rate : ℝ) : OptResult N :=
  let result := minimize (posedProblem avg_returns cov_matrix)
  let m := calculate_portfolio_metrics avg_returns cov_matrix result.x
  ⟨result.x, m.1, m.2.1, m.2.2⟩

/-- Method view of the scorer: it reads `self.avg_returns` and
`self.cov_matrix` and writes no attribute (lines 44-56 contain no
assignment to `self`), so the state component of the result is the input
state. -/
def calculate_portfolio_metrics_m {N : ℕ} (s : PState N) (weights : Fin N → ℝ) :
    PState N × (ℝ × ℝ × ℝ) :=
  (s, calculate_portfolio_metrics s.avg_returns s.cov_matrix weights)

/-- Method view of the Monte Carlo run: lines 58-80 read the statistics
fields and write no attribute. -/
def run_monte_carlo_m {N : ℕ} (s : PState N) (rng : ℕ → Fin N → ℝ)
    (num_simulations : ℕ) : PState N × List ((Fin N → ℝ) × (ℝ × ℝ × ℝ)) :=
  (s, run_monte_carlo s.avg_returns s.cov_matrix rng num_simulations)

/-- Method view of the optimizer: lines 82-121 read the statistics fields
and write no attribute. -/
def optimize_portfolio_m {N : ℕ} (s : PState N)
    (minimize : Problem N → SolverResult N) (risk_free_rate : ℝ) :
    PState N × OptResult N :=
  (s, optimize_portfolio minimize s.avg_returns s.cov_matrix risk_free_rate)

/-- Pulling the elementwise factor 252 out of the quadratic form computed
by the scorer. -/
lemma quad_form_scale {N : ℕ} (C : Fin N → Fin N → ℝ) (w : Fin N → ℝ) :
    (∑ i, w i * ∑ j, C i j * 252 * w j) = 252 * ∑ i, w i * ∑ j, C i j * w j := by
  have h : ∀ i, (∑ j, C i j * 252 * w j) = 252 * ∑ j, C i j * w j := fun i => by
    rw [Finset.mul_sum]
    exact Finset.sum_congr rfl fun j _ => by ring
  rw [Finset.mul_sum]
  refine Finset.sum_congr rfl fun i _ => ?_
  rw [h i]; ring

/-- C1: the scorer returns exactly the triple
(252 · dot(m, w), sqrt(252 · wᵀCw), return / volatility); at the two-asset
statistics m = [0.001, 0.0005], C = [[0.0004, 0.00005], [0.00005, 0.0002]]
and w = [0.5, 0.5] the returned return is 0.189 and the returned volatility
is the quadratic-form value sqrt(252 · 0.000175) = 0.21. -/
theorem C1_scorer_formula {N : ℕ} (m : Fin N → ℝ) (C : Fin N → Fin N → ℝ)
    (w : Fin N → ℝ) :
    calculate_portfolio_metrics m C w =
      (252 * ∑ i, m i * w i,
       Real.sqrt (252 * ∑ i, w i * ∑ j, C i j * w j),
       (252 * ∑ i, m i * w i) /
         Real.sqrt (252 * ∑ i, w i * ∑ j, C i j * w j)) ∧
    (calculate_portfolio_metrics ![(1:ℝ)/1000, 1/2000]
        ![![(1:ℝ)/2500, 1/20000], ![(1:ℝ)/20000, 1/5000]]
        ![(1:ℝ)/2, 1/2]).1 = 189/1000 ∧
    (calculate_portfolio_metrics ![(1:ℝ)/1000, 1/2000]
        ![![(1:ℝ)/2500, 1/20000], ![(1:ℝ)/20000, 1/5000]]
        ![(1:ℝ)/2, 1/2]).2.1 = 21/100 := by
  refine ⟨?_, ?_, ?_⟩
  · simp only [calculate_portfolio_metrics]
    rw [quad_form_scale C w, mul_comm (∑ i, m i * w i) 252]
  · simp [calculate_portfolio_metrics, Fin.sum_univ_two]
    norm_num
  · simp only [calculate_portfolio_metrics]
    have hS : (∑ i, (![(1:ℝ)/2, 1/2]) i *
        ∑ j, (![![(1:ℝ)/2500, 1/20000], ![(1:ℝ)/20000, 1/5000]]) i j * 252 *
          (![(1:ℝ)/2, 1/2]) j) = ((21:ℝ)/100) ^ 2 := by
      simp [Fin.sum_univ_two]
      norm_num
    rw [hS, Real.sqrt_sq (by norm_num)]

/-- C2: the optimizer poses exactly this problem to the solver: objective
equal to the negated Sharpe ratio of the scorer, one equality constraint
whose residual vanishes iff the weights sum to 1, box bounds (0, 1) for
every asset, and the equal-weighting initial guess 1/N. -/
theorem C2_posed_problem {N : ℕ} (avg : Fin N → ℝ) (cov : Fin N → Fin N → ℝ) :
    (∀ w, (posedProblem avg cov).objective w =
      -((252 * ∑ i, avg i * w i) /
        Real.sqrt (252 * ∑ i, w i * ∑ j, cov i j * w j))) ∧
    (posedProblem avg cov).constraint_type = "eq" ∧
    (∀ x, ((posedProblem avg cov).constraint_fun x = 0 ↔ (∑ i, x i) = 1)) ∧
    (∀ i, (posedProblem avg cov).bounds i = (0, 1)) ∧
    (∀ i, (posedProblem avg cov).x0 i = 1 / (N : ℝ)) := by
  refine ⟨?_, rfl, ?_, fun i => rfl, fun i => rfl⟩
  · intro w
    simp only [posedProblem, calculate_portfolio_metrics]
    rw [quad_form_scale cov w, mul_comm (∑ i, avg i * w i) 252]
  · intro x
    simp only [posedProblem]
    constructor
    · intro h; linarith
    · intro h; rw [h]; ring

/-- C3: for every positive simulation count n, the Monte Carlo run returns
exactly n rows in draw order, row t pairing the t-th sampled weight vector
with exactly the metrics the scorer produces for it; with n = 1 the result
has exactly one row. -/
theorem C3_monte_carlo_rows {N : ℕ} (avg : Fin N → ℝ) (cov : Fin N → Fin N → ℝ)
    (rng : ℕ → Fin N → ℝ) (n : ℕ) (h : 0 < n) :
    (run_monte_carlo avg cov rng n).length = n ∧
    (∀ t, t < n → (run_monte_carlo avg cov rng n)[t]? =
      some (generate_portfolio (rng t),
            calculate_portfolio_metrics avg cov (generate_portfolio (rng t)))) ∧
    (run_monte_carlo avg cov rng 1).length = 1 := by
  refine ⟨by simp [run_monte_carlo], ?_, by simp [run_monte_carlo]⟩
  intro t ht
  simp [run_monte_carlo, List.getElem?_map, List.getElem?_range, ht]

/-- Witness for C3: at a concrete one-asset universe, constant random
stream and n = 1, the positivity hypothesis holds and the run has exactly
one row of the stated shape. -/
theorem C3_monte_carlo_rows_witness :
    0 < 1 ∧
    ((run_monte_carlo ![(0:ℝ)] ![![(0:ℝ)]] (fun _ _ => 1) 1).length = 1 ∧
     (∀ t, t < 1 → (run_monte_carlo ![(0:ℝ)] ![![(0:ℝ)]] (fun _ _ => 1) 1)[t]? =
       some (generate_portfolio (fun _ => 1),
             calculate_portfolio_metrics ![(0:ℝ)] ![![(0:ℝ)]]
               (generate_portfolio (fun _ => 1)))) ∧
     (run_monte_carlo ![(0:ℝ)] ![![(0:ℝ)]] (fun _ _ => 1) 1).length = 1) :=
  ⟨Nat.one_pos, C3_monte_carlo_rows ![(0:ℝ)] ![![(0:ℝ)]] (fun _ _ => 1) 1 Nat.one_pos⟩

/-- C4 counterexample: the sampler does not retry on the all-zero draw: it
divides by the zero sum anyway (NaN in numpy, 0 under the ℝ convention),
so the output is the zero vector and its sum is not within 1e-9 of 1. -/
theorem C4_counterexample :
    (∀ i : Fin 2, generate_portfolio (fun _ => (0:ℝ)) i = 0) ∧
    ¬ |(∑ i : Fin 2, generate_portfolio (fun _ => (0:ℝ)) i) - 1| ≤ 1/1000000000 := by
  constructor
  · intro i; simp [generate_portfolio]
  · have hz : (∑ i : Fin 2, generate_portfolio (fun _ => (0:ℝ)) i) = 0 := by
      simp [generate_portfolio]
    rw [hz, zero_sub, abs_neg, abs_one]
    norm_num

/-- C4 as amended: the sampler performs no zero-sum guard or retry; on the
all-zero draw it divides by zero (NaN in floats).  Whenever the raw draws
are nonnegative with positive sum — every case but the measure-zero
all-zero draw — the output is nonnegative and sums to exactly 1. -/
theorem C4_normalized_when_positive {N : ℕ} (draw : Fin N → ℝ)
    (h0 : ∀ i, 0 ≤ draw i) (hs : 0 < ∑ i, draw i) :
    (∀ i, 0 ≤ generate_portfolio draw i) ∧
    (∑ i, generate_portfolio draw i) = 1 := by
  constructor
  · intro i
    exact div_nonneg (h0 i) (le_of_lt hs)
  · unfold generate_portfolio
    rw [← Finset.sum_div, div_self (ne_of_gt hs)]

/-- Witness for C4: the concrete draw [1, 3] is nonnegative with positive
sum, and the sampler output is nonnegative and sums to 1. -/
theorem C4_normalized_when_positive_witness :
    (∀ i : Fin 2, 0 ≤ (![1, 3] : Fin 2 → ℝ) i) ∧
    (0 < ∑ i : Fin 2, (![1, 3] : Fin 2 → ℝ) i) ∧
    ((∀ i, 0 ≤ generate_portfolio (![1, 3] : Fin 2 → ℝ) i) ∧
     (∑ i, generate_portfolio (![1, 3] : Fin 2 → ℝ) i) = 1) := by
  have h0 : ∀ i : Fin 2, 0 ≤ (![1, 3] : Fin 2 → ℝ) i := by
    intro i; fin_cases i <;> norm_num
  have hs : 0 < ∑ i : Fin 2, (![1, 3] : Fin 2 → ℝ) i := by
    rw [Fin.sum_univ_two]; norm_num
  exact ⟨h0, hs, C4_normalized_when_positive _ h0 hs⟩

/-- C5 counterexample: at the zero-variance single-asset statistics
m = [0.001], C = [[0]], w = [1] the volatility is exactly 0 and the scorer
still returns a triple — the unguarded division return / 0 is executed
(inf in floats, 0 under the ℝ convention) and no DivisionByZeroError
exists anywhere in the code. -/
theorem C5_counterexample :
    calculate_portfolio_metrics ![(1:ℝ)/1000] ![![(0:ℝ)]] ![(1:ℝ)] =
      ((63:ℝ)/250, 0, (63:ℝ)/250 / 0) := by
  simp [calculate_portfolio_metrics]
  norm_num

/-- C5 as amended: the scorer has no zero-volatility guard: whenever the
quadratic form is 0 it returns the triple with volatility 0 and a sharpe
component computed by the division return / 0 (inf/NaN in floating point),
signalling no error. -/
theorem C5_no_zero_volatility_guard {N : ℕ} (m : Fin N → ℝ)
    (C : Fin N → Fin N → ℝ) (w : Fin N → ℝ)
    (h : (∑ i, w i * ∑ j, C i j * 252 * w j) = 0) :
    calculate_portfolio_metrics m C w =
      ((∑ i, m i * w i) * 252, 0, ((∑ i, m i * w i) * 252) / 0) := by
  simp only [calculate_portfolio_metrics, h, Real.sqrt_zero]

/-- Witness for C5: the zero-variance single-asset input satisfies the
zero-quadratic-form hypothesis and the scorer returns the stated triple. -/
theorem C5_no_zero_volatility_guard_witness :
    (∑ i, (![(1:ℝ)] : Fin 1 → ℝ) i *
      ∑ j, (![![(0:ℝ)]] : Fin 1 → Fin 1 → ℝ) i j * 252 * (![(1:ℝ)] : Fin 1 → ℝ) j) = 0 ∧
    calculate_portfolio_metrics ![(1:ℝ)/1000] ![![(0:ℝ)]] ![(1:ℝ)] =
      ((∑ i, (![(1:ℝ)/1000] : Fin 1 → ℝ) i * (![(1:ℝ)] : Fin 1 → ℝ) i) * 252, 0,
       (∑ i, (![(1:ℝ)/1000] : Fin 1 → ℝ) i * (![(1:ℝ)] : Fin 1 → ℝ) i) * 252 / 0) := by
  have h : (∑ i, (![(1:ℝ)] : Fin 1 → ℝ) i *
      ∑ j, (![![(0:ℝ)]] : Fin 1 → Fin 1 → ℝ) i j * 252 * (![(1:ℝ)] : Fin 1 → ℝ) j) = 0 := by
    simp
  exact ⟨h, C5_no_zero_volatility_guard ![(1:ℝ)/1000] ![![(0:ℝ)]] ![(1:ℝ)] h⟩

/-- Expanding a sum of products of centred terms over a list. -/
lemma sum_map_sub_mul {α : Type} (l : List α) (f g : α → ℝ) (a b : ℝ) :
    (l.map fun r => (f r - a) * (g r - b)).sum =
      (l.map fun r => f r * g r).sum - b * (l.map f).sum - a * (l.map g).sum
        + l.length * (a * b) := by
  induction l with
  | nil => simp
  | cons x xs ih =>
    simp only [List.map_cons, List.sum_cons, List.length_cons, ih]
    push_cast
    ring

/-- The pandas sample covariance in uncentred form: for a nonempty sample,
cov i j = (Σ xy − L·mean_i·mean_j) / (L − 1). -/
lemma covMat_uncentered {N : ℕ} (rows : List (Fin N → ℝ)) (i j : Fin N)
    (h : rows.length ≠ 0) :
    covMat rows i j =
      ((rows.map fun r => r i * r j).sum
        - rows.length * meanVec rows i * meanVec rows j)
        / ((rows.length - 1 : ℕ) : ℝ) := by
  have hL : (rows.length : ℝ) ≠ 0 := Nat.cast_ne_zero.mpr h
  have hmi : (rows.map fun r => r i).sum = rows.length * meanVec rows i := by
    unfold meanVec; field_simp
  have hmj : (rows.map fun r => r j).sum = rows.length * meanVec rows j := by
    unfold meanVec; field_simp
  unfold covMat
  rw [sum_map_sub_mul, hmi, hmj]
  congr 1
  ring

/-- C6 as amended: no minimum-length check exists: the statistics are
computed unconditionally (with fewer than 2 aligned rows the covariance
denominator is 0 and the result is NaN in pandas, not an
InsufficientDataError).  With at least 2 aligned return rows the stored
mean vector is the arithmetic mean over the aligned sample and the stored
covariance matrix is the ddof-1 sample covariance over that same sample,
here in its equivalent uncentred form. -/
theorem C6_stats_over_aligned_sample {N : ℕ} (s : PState N)
    (data : List (Fin N → ℝ)) (i j : Fin N)
    (h2 : 2 ≤ (pct_change_dropna data).length) :
    (fetch_data s data).avg_returns i =
      ((pct_change_dropna data).map fun r => r i).sum
        / (pct_change_dropna data).length ∧
    (fetch_data s data).cov_matrix i j =
      (((pct_change_dropna data).map fun r => r i * r j).sum
        - (pct_change_dropna data).length * ((pct_change_dropna data).map fun r => r i).sum
            / (pct_change_dropna data).length
            * (((pct_change_dropna data).map fun r => r j).sum
                / (pct_change_dropna data).length))
        / (((pct_change_dropna data).length - 1 : ℕ) : ℝ) := by
  have h0 : (pct_change_dropna data).length ≠ 0 := by omega
  refine ⟨rfl, ?_⟩
  show covMat (pct_change_dropna data) i j = _
  rw [covMat_uncentered (pct_change_dropna data) i j h0]
  unfold meanVec
  congr 1
  ring

/-- Witness for C6: the three-row one-asset price table [1, 2, 3] leaves
the two aligned return rows [1, 1/2], satisfying the hypothesis, and the
stored statistics take the stated mean and uncentred-covariance form. -/
theorem C6_stats_over_aligned_sample_witness :
    2 ≤ (pct_change_dropna [(![1] : Fin 1 → ℝ), ![2], ![3]]).length ∧
    ((fetch_data (init_state 1 ["A"] 10000000) [(![1] : Fin 1 → ℝ), ![2], ![3]]).avg_returns 0 =
      ((pct_change_dropna [(![1] : Fin 1 → ℝ), ![2], ![3]]).map fun r => r 0).sum
        / (pct_change_dropna [(![1] : Fin 1 → ℝ), ![2], ![3]]).length ∧
     (fetch_data (init_state 1 ["A"] 10000000) [(![1] : Fin 1 → ℝ), ![2], ![3]]).cov_matrix 0 0 =
      (((pct_change_dropna [(![1] : Fin 1 → ℝ), ![2], ![3]]).map fun r => r 0 * r 0).sum
        - (pct_change_dropna [(![1] : Fin 1 → ℝ), ![2], ![3]]).length *
            ((pct_change_dropna [(![1] : Fin 1 → ℝ), ![2], ![3]]).map fun r => r 0).sum
            / (pct_change_dropna [(![1] : Fin 1 → ℝ), ![2], ![3]]).length
            * (((pct_change_dropna [(![1] : Fin 1 → ℝ), ![2], ![3]]).map fun r => r 0).sum
                / (pct_change_dropna [(![1] : Fin 1 → ℝ), ![2], ![3]]).length))
        / (((pct_change_dropna [(![1] : Fin 1 → ℝ), ![2], ![3]]).length - 1 : ℕ) : ℝ)) := by
  have h2 : 2 ≤ (pct_change_dropna [(![1] : Fin 1 → ℝ), ![2], ![3]]).length := by
    simp [pct_change_dropna]
  exact ⟨h2, C6_stats_over_aligned_sample (init_state 1 ["A"] 10000000)
    [(![1] : Fin 1 → ℝ), ![2], ![3]] 0 0 h2⟩

/-- C6 counterexample: the two-row one-asset price table [1, 2] leaves a
single aligned return row (fewer than 2), yet the statistics computation
does not fail: it stores mean 1 and a covariance obtained by the executed
0-denominator division (NaN in pandas, 0 under the ℝ convention); no
InsufficientDataError exists anywhere in the code. -/
theorem C6_counterexample :
    (pct_change_dropna [(![1] : Fin 1 → ℝ), ![2]]).length = 1 ∧
    (fetch_data (init_state 1 ["A"] 10000000) [(![1] : Fin 1 → ℝ), ![2]]).avg_returns 0 = 1 ∧
    (fetch_data (init_state 1 ["A"] 10000000) [(![1] : Fin 1 → ℝ), ![2]]).cov_matrix 0 0 = 0 := by
  refine ⟨by norm_num [pct_change_dropna], ?_, ?_⟩
  · show meanVec (pct_change_dropna [(![1] : Fin 1 → ℝ), ![2]]) 0 = 1
    simp [meanVec, pct_change_dropna]
    norm_num
  · show covMat (pct_change_dropna [(![1] : Fin 1 → ℝ), ![2]]) 0 0 = 0
    simp [covMat, pct_change_dropna]

/-- C7 as amended: the Monte Carlo run does not validate num_simulations:
with 0 it returns the empty result (range(0) yields no trials) instead of
failing with InvalidArgumentError. -/
theorem C7_no_validation {N : ℕ} (avg : Fin N → ℝ) (cov : Fin N → Fin N → ℝ)
    (rng : ℕ → Fin N → ℝ) :
    run_monte_carlo avg cov rng 0 = [] := rfl

/-- C7 counterexample: at a concrete one-asset universe,
run_monte_carlo with num_simulations = 0 returns the empty result rather
than failing; no InvalidArgumentError exists anywhere in the code. -/
theorem C7_counterexample :
    run_monte_carlo ![(1:ℝ)/1000] ![![(1:ℝ)/2500]] (fun _ _ => 1) 0 = [] := rfl

/-- C8 counterexample: a solver run that reports non-convergence
(success = false) with final iterate [0.7, 0.7] yields a returned
portfolio whose weights sum to 1.4 — the sum-to-1 constraint is violated —
and the returned record has only the four fields weights, return,
volatility, sharpe_ratio, so no convergence flag is set to false. -/
theorem C8_counterexample :
    (∑ i, (optimize_portfolio (fun _ => SolverResult.mk ![(7:ℝ)/10, 7/10] false)
        ![(1:ℝ)/1000, 1/2000] ![![(1:ℝ)/2500, 1/20000], ![(1:ℝ)/20000, 1/5000]]
        (2/100)).weights i) = 7/5 ∧
    ((7:ℝ)/5) ≠ 1 := by
  constructor
  · show (∑ i : Fin 2, (![(7:ℝ)/10, 7/10]) i) = 7/5
    rw [Fin.sum_univ_two]
    norm_num
  · norm_num

/-- C8 as amended: on solver non-convergence the optimizer neither raises
nor reports: the returned record is a function of the solver's final
iterate x alone — any two solver outcomes with the same x, converged or
not, produce identical results — so the record carries no convergence
flag, and the weights are passed through unchecked rather than being
guaranteed to satisfy the constraints. -/
theorem C8_result_ignores_convergence {N : ℕ} (avg : Fin N → ℝ)
    (cov : Fin N → Fin N → ℝ) (rfr : ℝ)
    (f g : Problem N → SolverResult N)
    (h : (f (posedProblem avg cov)).x = (g (posedProblem avg cov)).x) :
    optimize_portfolio f avg cov rfr = optimize_portfolio g avg cov rfr := by
  simp only [optimize_portfolio, h]

/-- Witness for C8: two concrete solvers returning the same iterate with
opposite convergence flags satisfy the hypothesis and produce identical
optimizer results. -/
theorem C8_result_ignores_convergence_witness :
    ((fun _ => SolverResult.mk ![(1:ℝ)] false)
        (posedProblem ![(1:ℝ)/1000] ![![(1:ℝ)/2500]])).x =
      ((fun _ => SolverResult.mk ![(1:ℝ)] true)
        (posedProblem ![(1:ℝ)/1000] ![![(1:ℝ)/2500]])).x ∧
    optimize_portfolio (fun _ => SolverResult.mk ![(1:ℝ)] false)
        ![(1:ℝ)/1000] ![![(1:ℝ)/2500]] (2/100) =
      optimize_portfolio (fun _ => SolverResult.mk ![(1:ℝ)] true)
        ![(1:ℝ)/1000] ![![(1:ℝ)/2500]] (2/100) :=
  ⟨rfl, C8_result_ignores_convergence ![(1:ℝ)/1000] ![![(1:ℝ)/2500]] (2/100)
    (fun _ => SolverResult.mk ![(1:ℝ)] false)
    (fun _ => SolverResult.mk ![(1:ℝ)] true) rfl⟩

/-- C9: the scorer, the Monte Carlo run and the optimizer all leave the
session state — asset universe, portfolio size and the computed statistics
fields — unchanged: the state component of each method result equals the
input state (their bodies contain no attribute assignment). -/
theorem C9_state_unchanged {N : ℕ} (s : PState N) (w : Fin N → ℝ)
    (rng : ℕ → Fin N → ℝ) (n : ℕ) (minimize : Problem N → SolverResult N)
    (rfr : ℝ) :
    (calculate_portfolio_metrics_m s w).1 = s ∧
    (run_monte_carlo_m s rng n).1 = s ∧
    (optimize_portfolio_m s minimize rfr).1 = s :=
  ⟨rfl, rfl, rfl⟩

/-- C10: the optimizer result is independent of the risk_free_rate
argument: the parameter is accepted (default 0.02) but never read by the
body, so any two rates give identical weights and metrics. -/
theorem C10_risk_free_rate_unused {N : ℕ} (minimize : Problem N → SolverResult N)
    (avg : Fin N → ℝ) (cov : Fin N → Fin N → ℝ) (r1 r2 : ℝ) :
    optimize_portfolio minimize avg cov r1 = optimize_portfolio minimize avg cov r2 := rfl
